import Mathlib

/-!
Verification development for `bangalore_reddit_leads_bot.py`.

The file shallowly embeds the pure core of the script: the text normalizer
(`clean`), the field extractors (`extract_budget`, `extract_bhk`,
`extract_locality`, `classify_type`), the relevance filter and lead builder
(`process_item`), the CSV dedup ledger (`already_seen`, `save_lead`) and one
iteration of the polling loop body over a fetched batch (`poll_cycle`).

Python's `re` module is embedded by a small executable regular-expression
engine (`RE`, `matchesF`, `reSearch`) implementing leftmost search with
backtracking semantics: alternatives are tried in source order, repetition is
greedy, and the result of a successful search is the matched substring
(`group(0)`), taken verbatim from the input text.

The ledger is read through `pd.read_csv`, so `already_seen` observes each
stored id through the csv-write / pandas-read / `astype(str)` roundtrip
(`observedId`): an NA sentinel field — the empty string, NA, null and the
other pandas defaults — reads back as NaN and stringifies to nan, so it is
never found under its written form.
-/

/-- Whitespace characters matched by the regex class backslash-s and stripped
by Python's `str.strip()` (ASCII range; the texts handled here are ASCII plus
the rupee sign, which is not whitespace). -/
def isPySpace (c : Char) : Bool :=
  c == ' ' || c == '\t' || c == '\n' || c == '\r' || c == '\x0b' || c == '\x0c'

/-- Word characters for Python's word-boundary assertion (ASCII range of
backslash-w: letters, digits, underscore). -/
def isWordChar (c : Char) : Bool :=
  c.isAlphanum || c == '_'

/-- Regular-expression abstract syntax, covering exactly the constructs used
by the patterns of the script: literals and character classes, concatenation,
alternation, greedy star (and derived plus, option, bounded repetition) and
the word-boundary assertion. -/
inductive RE where
  | eps : RE
  | wb : RE
  | cls : (Char → Bool) → RE
  | cat : RE → RE → RE
  | alt : RE → RE → RE
  | star : RE → RE

/-- Is the (optional) character a word character?  `none` stands for the edge
of the string, which is not a word character. -/
def wordB : Option Char → Bool
  | none => false
  | some c => isWordChar c

/-- Previous-character context after consuming `u`: the last consumed
character, or the old context when nothing was consumed.  Needed by the
word-boundary assertion. -/
def newPrev (prev : Option Char) (u : List Char) : Option Char :=
  match u.getLast? with
  | some c => some c
  | none => prev

/-- Size of a regular expression, used to compute an adequate fuel bound for
the backtracking matcher. -/
def reSize : RE → Nat
  | .eps => 1
  | .wb => 1
  | .cls _ => 1
  | .cat a b => reSize a + reSize b + 1
  | .alt a b => reSize a + reSize b + 1
  | .star r => reSize r + 1

/-- Backtracking matcher.  `matchesF fuel r prev s` returns, in backtracking
priority order (alternatives in source order, repetition greedy), the list of
ways `r` can match a prefix of `s`; each entry is the consumed prefix paired
with the remaining suffix.  `prev` is the character just before `s` (for word
boundaries).  `fuel` bounds the recursion depth; every star iteration must
consume at least one character, so the fuel chosen by `searchAux` is never
exhausted on the patterns of the script. -/
def matchesF : Nat → RE → Option Char → List Char → List (List Char × List Char)
  | 0, _, _, _ => []
  | fuel + 1, re, prev, s =>
    match re with
    | .eps => [([], s)]
    | .wb => if wordB prev != wordB s.head? then [([], s)] else []
    | .cls p =>
      match s with
      | [] => []
      | c :: rest => if p c then [([c], rest)] else []
    | .cat a b =>
      (matchesF fuel a prev s).flatMap fun pr =>
        (matchesF fuel b (newPrev prev pr.1) pr.2).map fun qr =>
          (pr.1 ++ qr.1, qr.2)
    | .alt a b => matchesF fuel a prev s ++ matchesF fuel b prev s
    | .star r =>
      (((matchesF fuel r prev s).filter fun pr => !pr.1.isEmpty).flatMap fun pr =>
        (matchesF fuel (.star r) (newPrev prev pr.1) pr.2).map fun qr =>
          (pr.1 ++ qr.1, qr.2)) ++ [([], s)]

/-- Leftmost search: try to match at the current position; on failure advance
one character (updating the previous-character context) and retry.  Returns
the consumed characters of the first (leftmost, highest-priority) match, like
`re.search(...).group(0)`. -/
def searchAux (r : RE) : Option Char → List Char → Option (List Char)
  | prev, [] =>
    match (matchesF ((reSize r + 2) * 2) r prev []).head? with
    | some pr => some pr.1
    | none => none
  | prev, c :: rest =>
    match (matchesF ((reSize r + 2) * (rest.length + 3)) r prev (c :: rest)).head? with
    | some pr => some pr.1
    | none => searchAux r (some c) rest

/-- Embedding of `re.search(pattern, text)`: `some` of the matched substring
(`group(0)`, verbatim from the input text), or `none` when the pattern does
not occur. -/
def reSearch (r : RE) (s : String) : Option String :=
  (searchAux r none s.data).map fun l => ⟨l⟩

/-- Case-insensitive literal character (all the script's patterns are compiled
or searched with `re.I`). -/
def litI (c : Char) : RE :=
  .cls fun x => x.toLower == c.toLower

/-- Case-insensitive literal string. -/
def strI (s : String) : RE :=
  s.data.foldr (fun c acc => .cat (litI c) acc) .eps

/-- Optional element (greedy question mark). -/
def reOpt (r : RE) : RE := .alt r .eps

/-- One-or-more repetition (greedy plus). -/
def rePlus (r : RE) : RE := .cat r (.star r)

/-- Digit character class. -/
def digitRE : RE := .cls fun c => '0' ≤ c && c ≤ '9'

/-- Whitespace character class (backslash-s). -/
def wsRE : RE := .cls isPySpace

/-- Single-digit class 1 to 4, from the BHK pattern. -/
def digit14RE : RE := .cls fun c => '1' ≤ c && c ≤ '4'

/-- Amount character class: digits, comma, dot, k or K. -/
def amountCharRE : RE :=
  .cls fun c => ('0' ≤ c && c ≤ '9') || c == ',' || c == '.' || c.toLower == 'k'

/-- Bounded repetition of one to three copies (greedy), used for the
`{1,3}` quantifier. -/
def rep13 (r : RE) : RE := .cat r (reOpt (.cat r (reOpt r)))

/-- Exactly three copies, used for the `{3}` quantifier. -/
def rep3 (r : RE) : RE := .cat r (.cat r r)

/-- Nested alternation of a nonempty list, alternatives in source order. -/
def altList : List RE → RE
  | [] => .eps
  | [r] => r
  | r :: s :: rest => .alt r (altList (s :: rest))

/-- BUDGET_PATTERNS, entry 0.  Python source: a word boundary, the rupee sign,
an optional whitespace, one or more amount characters, a word boundary
(searched with re.I). -/
def budgetPat0 : RE :=
  .cat .wb (.cat (litI '₹') (.cat (reOpt wsRE) (.cat (rePlus amountCharRE) .wb)))

/-- BUDGET_PATTERNS, entry 1.  Python source: a word boundary, the literal
INR, an optional whitespace, one or more amount characters, a word boundary
(searched with re.I). -/
def budgetPat1 : RE :=
  .cat .wb (.cat (strI "INR") (.cat (reOpt wsRE) (.cat (rePlus amountCharRE) .wb)))

/-- BUDGET_PATTERNS, entry 2.  Python source: one to three digits, then one or
more groups of an optional comma and three digits, then any whitespace, then
INR or Rs or the rupee sign (searched with re.I). -/
def budgetPat2 : RE :=
  .cat (rep13 digitRE)
    (.cat (rePlus (.cat (reOpt (litI ',')) (rep3 digitRE)))
      (.cat (.star wsRE) (altList [strI "INR", strI "Rs", litI '₹'])))

/-- BUDGET_PATTERNS, entry 3.  Python source: a word boundary, one or more
digits, an optional whitespace, k or K, a word boundary (searched with
re.I). -/
def budgetPat3 : RE :=
  .cat .wb (.cat (rePlus digitRE)
    (.cat (reOpt wsRE) (.cat (altList [litI 'k', litI 'K']) .wb)))

/-- BUDGET_PATTERNS, entry 4.  Python source: a word boundary, one or more
digits, an optional dot, any digits, an optional whitespace, one of lac,
lakh, Lakh, lakhs, Lakhs, a word boundary (searched with re.I). -/
def budgetPat4 : RE :=
  .cat .wb (.cat (rePlus digitRE)
    (.cat (reOpt (litI '.')) (.cat (.star digitRE)
      (.cat (reOpt wsRE)
        (.cat (altList [strI "lac", strI "lakh", strI "Lakh", strI "lakhs", strI "Lakhs"])
          .wb)))))

/-- BUDGET_PATTERNS, entry 5.  Python source: a word boundary, one or more
digits, an optional dot, any digits, an optional whitespace, one of crore,
Cr, cr, a word boundary (searched with re.I). -/
def budgetPat5 : RE :=
  .cat .wb (.cat (rePlus digitRE)
    (.cat (reOpt (litI '.')) (.cat (.star digitRE)
      (.cat (reOpt wsRE)
        (.cat (altList [strI "crore", strI "Cr", strI "cr"]) .wb)))))

/-- The ordered pattern list BUDGET_PATTERNS of the script; list order is
priority order. -/
def BUDGET_PATTERNS : List RE :=
  [budgetPat0, budgetPat1, budgetPat2, budgetPat3, budgetPat4, budgetPat5]

/-- BHK_PATTERN of the script, compiled with re.I.  Python source: the word
studio, or a digit 1-4 with an optional whitespace and BHK, or a digit 1-4
with an optional whitespace and B/R, each alternative enclosed in word
boundaries, alternatives in that order. -/
def BHK_PATTERN : RE :=
  .alt (.cat .wb (.cat (strI "studio") .wb))
    (.alt (.cat .wb (.cat digit14RE (.cat (reOpt wsRE) (.cat (strI "BHK") .wb))))
      (.cat .wb (.cat digit14RE (.cat (reOpt wsRE) (.cat (strI "B/R") .wb)))))

/-- The KEYWORDS list of the script: intent phrases, searched with re.I as
plain (metacharacter-free) patterns. -/
def KEYWORDS : List RE :=
  [strI "looking for", strI "looking to rent", strI "looking to buy",
   strI "need a", strI "need an",
   strI "flat for rent", strI "flat for sale", strI "house for rent",
   strI "house for sale", strI "wanted", strI "seeking",
   strI "available for rent"]

/-- The generic housing-noun pattern of `process_item`.  Python source: a word
boundary, one of flat, apartment, house, rent, sale, bhk, studio, a word
boundary (searched with re.I). -/
def HOUSING_RE : RE :=
  .cat .wb
    (.cat (altList [strI "flat", strI "apartment", strI "house", strI "rent",
                    strI "sale", strI "bhk", strI "studio"])
      .wb)

/-- First-match loop of `extract_budget`: try the patterns in list order and
return the first search result; the empty string is the no-match value. -/
def firstMatch (text : String) : List RE → String
  | [] => ""
  | p :: ps =>
    match reSearch p text with
    | some m => m
    | none => firstMatch text ps

/-- Embedding of `extract_budget`: for each pattern in BUDGET_PATTERNS, in
order, search the text (re.I); return the first match verbatim, or the empty
string when no pattern matches. -/
def extract_budget (text : String) : String :=
  firstMatch text BUDGET_PATTERNS

/-- Embedding of `extract_bhk`: search the text with BHK_PATTERN and return
the matched substring verbatim, or the empty string. -/
def extract_bhk (text : String) : String :=
  match reSearch BHK_PATTERN text with
  | some m => m
  | none => ""

/-- Whitespace-run collapsing, the substitution step of `clean`: each maximal
run of whitespace characters is replaced by a single space.  The flag records
whether the previous character belonged to a whitespace run already emitted
as a space. -/
def collapseAux : Bool → List Char → List Char
  | _, [] => []
  | inWS, c :: cs =>
    if isPySpace c then
      if inWS then collapseAux true cs else ' ' :: collapseAux true cs
    else c :: collapseAux false cs

/-- Embedding of the Python expression replacing every whitespace run in the
string by a single space. -/
def collapseWS (l : List Char) : List Char := collapseAux false l

/-- Embedding of Python `str.strip()`: remove leading and trailing whitespace
characters. -/
def stripWS (l : List Char) : List Char :=
  ((l.dropWhile isPySpace).reverse.dropWhile isPySpace).reverse

/-- Embedding of `clean`: for a truthy (present, nonempty) string, collapse
every whitespace run to a single space and strip the ends; a missing or empty
value yields the empty string. -/
def clean : Option String → String
  | none => ""
  | some s => if s = "" then "" else ⟨stripWS (collapseWS s.data)⟩

/-- Embedding of Python `str.lower()` (the texts handled are ASCII plus the
rupee sign, which has no case). -/
def strLower (s : String) : String := ⟨s.data.map Char.toLower⟩

/-- Embedding of Python string slicing `s[:n]`: the first `n` characters. -/
def strTake (s : String) (n : Nat) : String := ⟨s.data.take n⟩

/-- Boolean list-prefix test on characters. -/
def isPrefixB : List Char → List Char → Bool
  | [], _ => true
  | _ :: _, [] => false
  | a :: as, b :: bs => a == b && isPrefixB as bs

/-- Does `sub` occur as a contiguous run inside `t`? -/
def substrAux (sub : List Char) : List Char → Bool
  | [] => isPrefixB sub []
  | c :: rest => isPrefixB sub (c :: rest) || substrAux sub rest

/-- Embedding of Python substring containment `sub in t`. -/
def isSubstrB (sub t : String) : Bool := substrAux sub.data t.data

/-- Title-casing step of Python `str.title()`: the first letter of each
letter run is uppercased, the following letters lowercased; the flag records
whether the previous character was a letter. -/
def titleAux : Bool → List Char → List Char
  | _, [] => []
  | prevAlpha, c :: cs =>
    if c.isAlpha then
      (if prevAlpha then c.toLower else c.toUpper) :: titleAux true cs
    else c :: titleAux false cs

/-- Embedding of Python `str.title()`. -/
def titleCase (s : String) : String := ⟨titleAux false s.data⟩

/-- Lexicographic (code-point) order on character lists, as used by Python
`sorted` on strings. -/
def lexLe : List Char → List Char → Bool
  | [], _ => true
  | _ :: _, [] => false
  | a :: as, b :: bs => if a < b then true else if b < a then false else lexLe as bs

/-- Code-point order on strings. -/
def strLe (a b : String) : Bool := lexLe a.data b.data

/-- Insert into a sorted list (insertion-sort step). -/
def insertSorted (x : String) : List String → List String
  | [] => [x]
  | y :: ys => if strLe x y then x :: y :: ys else y :: insertSorted x ys

/-- Ascending insertion sort by code-point order, the embedding of Python
`sorted` on a list of strings. -/
def sortStrs : List String → List String
  | [] => []
  | x :: xs => insertSorted x (sortStrs xs)

/-- Duplicate removal (the embedding of building a Python `set`; the order of
survivors is irrelevant because the result is sorted afterwards). -/
def dedupStrs : List String → List String
  | [] => []
  | x :: xs => x :: (dedupStrs xs).filter fun y => y != x

/-- Comma-space join, the embedding of the Python join with separator comma
space. -/
def commaJoin : List String → String
  | [] => ""
  | [x] => x
  | x :: y :: rest => x ++ ", " ++ commaJoin (y :: rest)

/-- The curated LOCALITIES list of the script, in source order (including the
duplicate whitefield entry). -/
def LOCALITIES : List String :=
  ["whitefield", "koramangala", "hsr", "hsr layout", "indiranagar", "marathahalli",
   "rt nagar", "yelahanka", "jayanagar", "hebbal", "malleshwaram", "banashankari",
   "electronic city", "sarjapur", "bellandur", "rajajinagar", "ulsoor", "frazer town",
   "white field", "sarjapur road", "whitefield", "white-field"]

/-- Embedding of `extract_locality`: lowercase the text, collect the
title-cased form of every locality occurring as a substring, then join the
sorted set with comma-space. -/
def extract_locality (text : String) : String :=
  let t := strLower text
  let found := (LOCALITIES.filter fun loc => isSubstrB loc t).map titleCase
  commaJoin (sortStrs (dedupStrs found))

/-- The rent-indicating cues of `classify_type`, in source order. -/
def RENT_CUES : List String :=
  ["rent", "looking to rent", "flat for rent", "house for rent"]

/-- The sale-indicating cues of `classify_type`, in source order. -/
def SALE_CUES : List String :=
  ["sale", "buy", "flat for sale", "house for sale", "looking to buy"]

/-- Does the lowercased text contain a rent cue? -/
def hasRentCue (text : String) : Bool :=
  RENT_CUES.any fun k => isSubstrB k (strLower text)

/-- Does the lowercased text contain a sale cue? -/
def hasSaleCue (text : String) : Bool :=
  SALE_CUES.any fun k => isSubstrB k (strLower text)

/-- Embedding of `classify_type`: lowercase the text, test the rent cues and
the sale cues independently, then return Both, Sale, Rent or Unknown in that
priority order. -/
def classify_type (text : String) : String :=
  let t := strLower text
  let is_rent := RENT_CUES.any fun k => isSubstrB k t
  let is_sale := SALE_CUES.any fun k => isSubstrB k t
  if is_rent && is_sale then "Both"
  else if is_sale then "Sale"
  else if is_rent then "Rent"
  else "Unknown"

/-- A raw item handed to `process_item`: a Python dict whose lookups with
`item.get` may be missing (`none`) or present.  The fields are the keys the
script reads. -/
structure RawItem where
  id : Option String := none
  title : Option String := none
  selftext : Option String := none
  url : Option String := none
  permalink : Option String := none
  full_link : Option String := none
  link : Option String := none
deriving DecidableEq

/-- A lead record as assembled by `process_item`. -/
structure Lead where
  id : String
  timestamp : String
  title : String
  text : String
  budget : String
  bhk : String
  locality : String
  type : String
  link : String
deriving DecidableEq

/-- Python truthiness of an optional string: false for a missing value and
for the empty string. -/
def truthy : Option String → Bool
  | none => false
  | some s => !(s == "")

/-- Embedding of a chain of Python `or` over optional strings with a final
string default: the first truthy value wins. -/
def firstTruthy : List (Option String) → String → String
  | [], dflt => dflt
  | o :: rest, dflt => if truthy o then o.getD "" else firstTruthy rest dflt

/-- Embedding of `item.get(key, "")`. -/
def pyGetStr (o : Option String) : String := o.getD ""

/-- The concatenated normalized text `full` built by `process_item`: cleaned
title, a space, cleaned selftext. -/
def fullText (item : RawItem) : String :=
  clean item.title ++ " " ++ clean item.selftext

/-- The relevance test of `process_item`: some KEYWORDS pattern matches the
full text, or the generic housing-noun pattern does. -/
def isRelevant (full : String) : Bool :=
  (KEYWORDS.any fun k => (reSearch k full).isSome) || (reSearch HOUSING_RE full).isSome

/-- Embedding of `process_item`.  The wall-clock timestamp taken by the script
is passed in as `now`.  Steps, as in the source: clean title and selftext,
concatenate; return `none` unless a keyword or a housing noun matches; derive
the id from the item id, url, permalink or the first twenty characters of the
cleaned title (first truthy wins); derive the link from full_link or the
permalink prefixed with the reddit host when the permalink is truthy, else
from the link field; run the four extractors on the full text and assemble
the lead. -/
def process_item (now : String) (item : RawItem) : Option Lead :=
  let title := clean item.title
  let selftext := clean item.selftext
  let full := title ++ " " ++ selftext
  if !((KEYWORDS.any fun k => (reSearch k full).isSome)
       || (reSearch HOUSING_RE full).isSome) then
    none
  else
    let pid := firstTruthy [item.id, item.url, item.permalink] (strTake title 20)
    let link :=
      if truthy item.permalink then
        (if truthy item.full_link then pyGetStr item.full_link
         else "https://reddit.com" ++ pyGetStr item.permalink)
      else pyGetStr item.link
    some {
      id := pid
      timestamp := now
      title := title
      text := selftext
      budget := extract_budget full
      bhk := extract_bhk full
      locality := extract_locality full
      type := classify_type full
      link := link
    }

/-! ### The pandas id-column roundtrip -/

/-- Default NA sentinel strings of `pd.read_csv`: a field equal to one of
these is parsed as NaN, which `astype(str)` then renders as the string
nan. -/
def PD_NA_VALUES : List String :=
  ["", "#N/A", "#N/A N/A", "#NA", "-1.#IND", "-1.#QNAN", "-NaN", "-nan",
   "1.#IND", "1.#QNAN", "<NA>", "N/A", "NA", "NULL", "NaN", "None",
   "n/a", "nan", "null"]

/-- Observation of one id cell through the csv-write / `pd.read_csv` /
`astype(str)` roundtrip in the string-preserving (object dtype) regime: an
NA sentinel reads back as NaN and stringifies to nan; every other field is
kept verbatim.  NA fields are observed as nan under every dtype; the
re-rendering of the remaining fields of all-numeric columns is outside this
per-cell model, and the ledger theorems below restrict the ids they reason
about to `pdKeepsVerbatim` ones, whose very presence in the id column forces
the modeled object regime on it. -/
def observedId (s : String) : String :=
  if PD_NA_VALUES.contains s then "nan" else s

/-- A persisted CSV row, in the column order written by `save_lead`. -/
structure LeadRow where
  id : String
  timestamp : String
  title : String
  text : String
  budget : String
  bhk : String
  locality : String
  type : String
  link : String
deriving DecidableEq

/-- The row `save_lead` writes for a lead: all fields verbatim except the
text, which is truncated to four hundred characters. -/
def rowOfLead (l : Lead) : LeadRow :=
  { id := l.id, timestamp := l.timestamp, title := l.title,
    text := strTake l.text 400, budget := l.budget, bhk := l.bhk,
    locality := l.locality, type := l.type, link := l.link }

/-- State of the CSV dedup ledger as observed through `pd.read_csv`: either a
readable file with its data rows, or a state (missing, unreadable or
malformed file) in which reading raises. -/
inductive LedgerState where
  | readable (rows : List LeadRow)
  | corrupt
deriving DecidableEq

/-- Embedding of `already_seen`: read the CSV and test whether the id column
contains the id — Python `str(pid) in df['id'].astype(str).values`, where
each stored cell is observed through the pandas roundtrip (`observedId`), so
an NA-like stored id is compared as nan, not as the written string; any
exception while reading or parsing is caught and yields `false`.  The
function is total: no state makes it raise. -/
def already_seen (pid : String) : LedgerState → Bool
  | .readable rows => rows.any fun r => observedId r.id == pid
  | .corrupt => false

/-- Embedding of `save_lead`: append the row for the lead to the CSV file,
its field strings written verbatim (the parse-level observation of the id
happens at read time, in `already_seen`).  Appending to an unreadable file
leaves it unreadable. -/
def save_lead (l : Lead) : LedgerState → LedgerState
  | .readable rows => .readable (rows ++ [rowOfLead l])
  | .corrupt => .corrupt

/-- Trailing-whitespace removal, the second half of `stripWS`. -/
def dropTrailWS (l : List Char) : List Char :=
  (l.reverse.dropWhile isPySpace).reverse

/-- Head is not whitespace (or the list is empty); an auxiliary predicate for
the idempotence proof of `clean`. -/
def headOkB : List Char → Bool
  | [] => true
  | c :: _ => !isPySpace c

/-- Whitespace normal form: every whitespace character is a single space
followed by a non-whitespace character or the end of the list.  The collapse
step of `clean` always produces this form, and is the identity on it. -/
def spacedOK : List Char → Bool
  | [] => true
  | c :: cs => (if isPySpace c then c == ' ' && headOkB cs else true) && spacedOK cs

/-! ### Helper lemmas about the dedup ledger -/

/-- C10: `already_seen` is a total function of the ledger state (the Python
try/except catches every read or parse failure), and on a state whose read
fails it returns false for every id — including an id that was previously
appended, which is therefore reported as unseen and can be committed again. -/
theorem c10_contains_false_on_failure (pid : String) (lead : Lead) :
    already_seen pid LedgerState.corrupt = false ∧
      already_seen lead.id (save_lead lead LedgerState.corrupt) = false :=
  ⟨rfl, rfl⟩

/-- C4: `classify_type` tests the rent cues and the sale cues independently
and returns Both, Sale, Rent, Unknown by the 2x2 truth table, in that
priority order. -/
theorem c4_type_truth_table (text : String) :
    classify_type text =
      if hasRentCue text && hasSaleCue text then "Both"
      else if hasSaleCue text then "Sale"
      else if hasRentCue text then "Rent"
      else "Unknown" := rfl

/-- C5 counterexample: on the spec's example input the transaction-type
classifier does not return Rent (the text contains no rent cue; the code
returns Unknown). -/
theorem c5_counterexample :
    classify_type "Looking for 2BHK, budget 25k, near Indiranagar" ≠ "Rent" := by
  decide

/-- C5 (amended): on the example input the budget extractor returns 25k, the
room-configuration extractor returns 2BHK, the locality extractor returns
Indiranagar, and the transaction-type classifier returns Unknown (not Rent:
the text contains neither a rent cue nor a sale cue). -/
theorem c5_example_values_amended :
    extract_budget "Looking for 2BHK, budget 25k, near Indiranagar" = "25k" ∧
    extract_bhk "Looking for 2BHK, budget 25k, near Indiranagar" = "2BHK" ∧
    extract_locality "Looking for 2BHK, budget 25k, near Indiranagar" = "Indiranagar" ∧
    classify_type "Looking for 2BHK, budget 25k, near Indiranagar" = "Unknown" := by
  refine ⟨?_, ?_, ?_, ?_⟩ <;> decide

/-- C8 counterexample: the room-configuration extractor does not normalize the
unit abbreviation to uppercase — `group(0)` is taken verbatim from the input,
so a lowercase 2bhk in the text is returned as 2bhk, not 2BHK. -/
theorem c8_counterexample :
    extract_bhk "2bhk" = "2bhk" ∧ extract_bhk "2bhk" ≠ "2BHK" := by
  refine ⟨by decide, by decide⟩

/-- C8 (amended): for every text containing a room-configuration pattern (a
digit 1-4 with optional whitespace before the unit token, or the studio
word), the extractor returns the first (leftmost) match verbatim, with the
case it has in the input text; no case normalization occurs. -/
theorem c8_first_match_verbatim_amended (text m : String)
    (h : reSearch BHK_PATTERN text = some m) : extract_bhk text = m := by
  simp [extract_bhk, h]

/-- Witness for the amended C8 theorem at a concrete input. -/
theorem c8_first_match_verbatim_amended_witness : extract_bhk "2bhk flat" = "2bhk" :=
  c8_first_match_verbatim_amended "2bhk flat" "2bhk" (by decide)

/-! ### First-match-wins structure of the budget extractor -/

/-- The pattern loop returns the search result of the first pattern that
matches: if every pattern before index `i` fails and the pattern at `i`
matches `m`, the loop returns `m`. -/
theorem firstMatch_spec (text : String) :
    ∀ (ps : List RE) (i : Nat) (p : RE) (m : String), ps[i]? = some p →
      ((ps.take i).all fun q => (reSearch q text).isNone) = true →
      reSearch p text = some m → firstMatch text ps = m := by
  intro ps
  induction ps with
  | nil => intro i p m h; simp at h
  | cons q qs ih =>
    intro i p m hidx hall hsearch
    cases i with
    | zero =>
      simp only [List.getElem?_cons_zero, Option.some.injEq] at hidx
      subst hidx
      simp [firstMatch, hsearch]
    | succ j =>
      simp only [List.take_succ_cons, List.all_cons, Bool.and_eq_true] at hall
      have hqn : reSearch q text = none := by
        rcases hall with ⟨hq, _⟩
        exact Option.isNone_iff_eq_none.mp hq
      simp only [firstMatch, hqn]
      exact ih j p m (by simpa using hidx) hall.2 hsearch

/-- When no pattern matches, the loop returns the empty string. -/
theorem firstMatch_all_none (text : String) :
    ∀ ps : List RE, (ps.all fun q => (reSearch q text).isNone) = true →
      firstMatch text ps = "" := by
  intro ps
  induction ps with
  | nil => intro h; rfl
  | cons q qs ih =>
    intro h
    simp only [List.all_cons, Bool.and_eq_true] at h
    have hqn : reSearch q text = none := Option.isNone_iff_eq_none.mp h.1
    simp only [firstMatch, hqn]
    exact ih h.2

/-- C3: `extract_budget` tries the amount patterns in list order and returns
the first match of the earliest matching pattern verbatim, never consulting
later patterns once one matches; when no pattern matches it returns the empty
string (the absent value). -/
theorem c3_first_pattern_wins (text : String) :
    (∀ (i : Nat) (p : RE) (m : String), BUDGET_PATTERNS[i]? = some p →
      ((BUDGET_PATTERNS.take i).all fun q => (reSearch q text).isNone) = true →
      reSearch p text = some m → extract_budget text = m) ∧
    ((BUDGET_PATTERNS.all fun q => (reSearch q text).isNone) = true →
      extract_budget text = "") :=
  ⟨fun i p m hidx hall hsearch => firstMatch_spec text BUDGET_PATTERNS i p m hidx hall hsearch,
   fun hall => firstMatch_all_none text BUDGET_PATTERNS hall⟩

/-- Witness for the C3 theorem: on one input the fourth pattern (index 3) is
the earliest match and its result is returned; on another no pattern matches
and the empty string is returned. -/
theorem c3_first_pattern_wins_witness :
    extract_budget "budget 25k" = "25k" ∧ extract_budget "hello" = "" := by
  constructor
  · exact (c3_first_pattern_wins "budget 25k").1 3 budgetPat3 "25k" rfl (by decide) (by decide)
  · exact (c3_first_pattern_wins "hello").2 (by decide)

/-- C6: for every item whose normalized, concatenated title and body matches
neither any KEYWORDS intent pattern nor the generic housing-noun pattern,
`process_item` returns none: the builder exits before any field extractor
runs. -/
theorem c6_irrelevant_returns_none (now : String) (item : RawItem)
    (h : isRelevant (fullText item) = false) : process_item now item = none := by
  have h' : ((KEYWORDS.any fun k =>
        (reSearch k (clean item.title ++ " " ++ clean item.selftext)).isSome)
      || (reSearch HOUSING_RE (clean item.title ++ " " ++ clean item.selftext)).isSome)
      = false := h
  simp [process_item, h']

/-- Witness for the C6 theorem at a concrete irrelevant input. -/
theorem c6_irrelevant_returns_none_witness :
    process_item "t0"
      { id := some "r1", title := some "What is a good restaurant nearby",
        selftext := none, url := none, permalink := none, full_link := none,
        link := none } = none :=
  c6_irrelevant_returns_none "t0" _ (by decide)

/-! ### The id assembled by the lead builder -/

/-- The id of any lead built by `process_item` is the first truthy value of
the item id, url and permalink, with the first twenty characters of the
cleaned title as the final fallback. -/
theorem process_item_id_eq (now : String) (item : RawItem) (l : Lead)
    (hp : process_item now item = some l) :
    l.id = firstTruthy [item.id, item.url, item.permalink]
             (strTake (clean item.title) 20) := by
  simp only [process_item] at hp
  by_cases hrel : (!((KEYWORDS.any fun k =>
        (reSearch k (clean item.title ++ " " ++ clean item.selftext)).isSome)
      || (reSearch HOUSING_RE (clean item.title ++ " " ++ clean item.selftext)).isSome)) = true
  · rw [if_pos hrel] at hp
    exact absurd hp (by simp)
  · rw [if_neg hrel] at hp
    rw [← Option.some.inj hp]

/-- A truthy optional string holds a nonempty string. -/
theorem truthy_getD_ne_empty (o : Option String) (h : truthy o = true) :
    o.getD "" ≠ "" := by
  cases o with
  | none => simp [truthy] at h
  | some s => simpa [truthy] using h

/-- Taking the first twenty characters of a nonempty string gives a nonempty
string. -/
theorem strTake_ne_empty (s : String) (h : s ≠ "") : strTake s 20 ≠ "" := by
  cases s with
  | mk data =>
    cases data with
    | nil => exact absurd rfl h
    | cons c cs =>
      intro hc
      have : (strTake ⟨c :: cs⟩ 20).data = [] := by rw [hc]
      simp [strTake] at this

/-- C7 counterexample: a relevant item whose id, url and permalink are all
missing and whose title is empty yields a Lead whose id is the empty
string. -/
theorem c7_counterexample :
    (process_item "t0"
      { id := none, title := some "", selftext := some "flat for rent please",
        url := none, permalink := none, full_link := none,
        link := none }).map Lead.id = some "" := by
  decide

/-- C7 (amended): for every item from which the lead builder constructs a
Lead, the Lead's id is nonempty provided the source id, the url, the
permalink, or the cleaned title is nonempty; the fallback chain ends at the
first twenty characters of the cleaned title, so with all four empty the id
is empty. -/
theorem c7_id_nonempty_amended (now : String) (item : RawItem) (l : Lead)
    (hp : process_item now item = some l)
    (ht : (truthy item.id || truthy item.url || truthy item.permalink
           || !(clean item.title == "")) = true) :
    l.id ≠ "" := by
  rw [process_item_id_eq now item l hp]
  simp only [Bool.or_eq_true] at ht
  by_cases h1 : truthy item.id = true
  · simpa [firstTruthy, h1] using truthy_getD_ne_empty item.id h1
  · by_cases h2 : truthy item.url = true
    · simpa [firstTruthy, h1, h2] using truthy_getD_ne_empty item.url h2
    · by_cases h3 : truthy item.permalink = true
      · simpa [firstTruthy, h1, h2, h3] using truthy_getD_ne_empty item.permalink h3
      · have h4 : clean item.title ≠ "" := by
          rcases ht with ((ha | hb) | hc) | hd
          · exact absurd ha h1
          · exact absurd hb h2
          · exact absurd hc h3
          · simpa using hd
        simpa [firstTruthy, h1, h2, h3] using strTake_ne_empty _ h4

/-- Witness for the amended C7 theorem at a concrete input whose source id is
present. -/
theorem c7_id_nonempty_amended_witness :
    Lead.id { id := "x1", timestamp := "t0", title := "flat for rent", text := "",
              budget := "", bhk := "", locality := "", type := "Rent", link := "" } ≠ "" :=
  c7_id_nonempty_amended "t0"
    { id := some "x1", title := some "flat for rent", selftext := none,
      url := none, permalink := none, full_link := none, link := none }
    { id := "x1", timestamp := "t0", title := "flat for rent", text := "",
      budget := "", bhk := "", locality := "", type := "Rent", link := "" }
    (by decide) (by decide)

/-! ### Idempotence of the text normalizer -/

/-- With a non-whitespace head (or empty list) the collapse flag is
irrelevant. -/
theorem collapseAux_true_of_headOk (l : List Char) (h : headOkB l = true) :
    collapseAux true l = collapseAux false l := by
  cases l with
  | nil => rfl
  | cons c cs =>
    have hc : isPySpace c = false := by simpa [headOkB] using h
    simp [collapseAux, hc]

/-- Collapsing is the identity on whitespace normal forms. -/
theorem collapseAux_eq_self (l : List Char) (h : spacedOK l = true) :
    collapseAux false l = l := by
  induction l with
  | nil => rfl
  | cons c cs ih =>
    by_cases hc : isPySpace c = true
    · simp only [spacedOK, hc, if_pos, Bool.and_eq_true, beq_iff_eq] at h
      obtain ⟨⟨hsp, hhd⟩, hrest⟩ := h
      subst hsp
      have h1 : collapseAux false (' ' :: cs) = ' ' :: collapseAux true cs := rfl
      rw [h1, collapseAux_true_of_headOk cs hhd, ih hrest]
    · have hc' : isPySpace c = false := by simpa using hc
      simp only [spacedOK, hc', if_false, Bool.true_and] at h
      simp [collapseAux, hc', ih h]

/-- With the flag set, collapsing never emits a leading whitespace
character. -/
theorem headOk_collapseAux_true (l : List Char) :
    headOkB (collapseAux true l) = true := by
  induction l with
  | nil => rfl
  | cons c cs ih =>
    by_cases hc : isPySpace c = true
    · simpa [collapseAux, hc] using ih
    · have hc' : isPySpace c = false := by simpa using hc
      simp [collapseAux, hc', headOkB]

/-- Collapsing always produces a whitespace normal form. -/
theorem spacedOK_collapseAux (l : List Char) :
    ∀ b : Bool, spacedOK (collapseAux b l) = true := by
  induction l with
  | nil => intro b; rfl
  | cons c cs ih =>
    intro b
    by_cases hc : isPySpace c = true
    · cases b with
      | true => simpa [collapseAux, hc] using ih true
      | false =>
        have h1 : collapseAux false (c :: cs) = ' ' :: collapseAux true cs := by
          simp [collapseAux, hc]
        rw [h1]
        simp [spacedOK, headOk_collapseAux_true, ih true,
          show isPySpace ' ' = true from rfl]
    · have hc' : isPySpace c = false := by simpa using hc
      simp [collapseAux, hc', spacedOK, ih false]

/-- A non-whitespace head survives truncation to a prefix. -/
theorem headOk_append_left (x y : List Char) (h : headOkB (x ++ y) = true) :
    headOkB x = true := by
  cases x with
  | nil => rfl
  | cons c cs => simpa [headOkB] using h

/-- Whitespace normal form is inherited by prefixes. -/
theorem spacedOK_append_left (x y : List Char) (h : spacedOK (x ++ y) = true) :
    spacedOK x = true := by
  induction x with
  | nil => rfl
  | cons c cs ih =>
    simp only [List.cons_append, spacedOK, Bool.and_eq_true] at h ⊢
    refine ⟨?_, ih h.2⟩
    by_cases hc : isPySpace c = true
    · simp only [hc, if_pos, if_true, Bool.and_eq_true] at h ⊢
      exact ⟨h.1.1, headOk_append_left cs y h.1.2⟩
    · have hc' : isPySpace c = false := by simpa using hc
      simp [hc']

/-- Whitespace normal form is preserved by dropping a whitespace prefix. -/
theorem spacedOK_dropWhile (l : List Char) (h : spacedOK l = true) :
    spacedOK (l.dropWhile isPySpace) = true := by
  induction l with
  | nil => rfl
  | cons c cs ih =>
    simp only [spacedOK, Bool.and_eq_true] at h
    by_cases hc : isPySpace c = true
    · simpa [List.dropWhile, hc] using ih h.2
    · have hc' : isPySpace c = false := by simpa using hc
      simpa [List.dropWhile, hc', spacedOK, hc'] using h

/-- Dropping a whitespace prefix leaves a non-whitespace head. -/
theorem headOk_dropWhile (l : List Char) :
    headOkB (l.dropWhile isPySpace) = true := by
  induction l with
  | nil => rfl
  | cons c cs ih =>
    by_cases hc : isPySpace c = true
    · simpa [List.dropWhile, hc] using ih
    · have hc' : isPySpace c = false := by simpa using hc
      simp [List.dropWhile, hc', headOkB]

/-- Dropping a whitespace prefix is the identity when the head is not
whitespace. -/
theorem dropWhile_eq_self_of_headOk (l : List Char) (h : headOkB l = true) :
    l.dropWhile isPySpace = l := by
  cases l with
  | nil => rfl
  | cons c cs =>
    have hc : isPySpace c = false := by simpa [headOkB] using h
    simp [List.dropWhile, hc]

/-- The trailing-whitespace-stripped list is a prefix of the original. -/
theorem dropTrailWS_append (l : List Char) :
    dropTrailWS l ++ (l.reverse.takeWhile isPySpace).reverse = l := by
  calc dropTrailWS l ++ (l.reverse.takeWhile isPySpace).reverse
      = ((l.reverse.takeWhile isPySpace) ++ (l.reverse.dropWhile isPySpace)).reverse := by
        rw [List.reverse_append]; rfl
    _ = (l.reverse).reverse := by rw [List.takeWhile_append_dropWhile]
    _ = l := List.reverse_reverse l

/-- Whitespace normal form is preserved by trailing-whitespace removal. -/
theorem spacedOK_dropTrail (l : List Char) (h : spacedOK l = true) :
    spacedOK (dropTrailWS l) = true := by
  apply spacedOK_append_left (dropTrailWS l) ((l.reverse.takeWhile isPySpace).reverse)
  rw [dropTrailWS_append]
  exact h

/-- A non-whitespace head is preserved by trailing-whitespace removal. -/
theorem headOk_dropTrail (l : List Char) (h : headOkB l = true) :
    headOkB (dropTrailWS l) = true := by
  apply headOk_append_left (dropTrailWS l) ((l.reverse.takeWhile isPySpace).reverse)
  rw [dropTrailWS_append]
  exact h

/-- Dropping a whitespace prefix twice equals dropping it once. -/
theorem dropWhile_ws_idem (l : List Char) :
    (l.dropWhile isPySpace).dropWhile isPySpace = l.dropWhile isPySpace :=
  dropWhile_eq_self_of_headOk _ (headOk_dropWhile l)

/-- Trailing-whitespace removal is idempotent. -/
theorem dropTrailWS_idem (l : List Char) :
    dropTrailWS (dropTrailWS l) = dropTrailWS l := by
  show ((dropTrailWS l).reverse.dropWhile isPySpace).reverse = dropTrailWS l
  rw [show (dropTrailWS l).reverse = l.reverse.dropWhile isPySpace from
        List.reverse_reverse _]
  rw [dropWhile_ws_idem]
  rfl

/-- Stripping is idempotent. -/
theorem stripWS_idem (l : List Char) : stripWS (stripWS l) = stripWS l := by
  have hstrip : ∀ m : List Char, stripWS m = dropTrailWS (m.dropWhile isPySpace) :=
    fun m => rfl
  rw [hstrip, hstrip l]
  rw [dropWhile_eq_self_of_headOk _
        (headOk_dropTrail _ (headOk_dropWhile l))]
  exact dropTrailWS_idem _

/-- Whitespace normal form is preserved by stripping. -/
theorem spacedOK_stripWS (l : List Char) (h : spacedOK l = true) :
    spacedOK (stripWS l) = true :=
  spacedOK_dropTrail _ (spacedOK_dropWhile l h)

/-- Core idempotence of the collapse-then-strip normalization. -/
theorem cleanL_idem (l : List Char) :
    stripWS (collapseWS (stripWS (collapseWS l))) = stripWS (collapseWS l) := by
  have h1 : spacedOK (collapseWS l) = true := spacedOK_collapseAux l false
  have h2 : spacedOK (stripWS (collapseWS l)) = true := spacedOK_stripWS _ h1
  rw [show collapseWS (stripWS (collapseWS l)) = stripWS (collapseWS l) from
        collapseAux_eq_self _ h2]
  exact stripWS_idem _

/-- C9: the text normalizer is idempotent — for every string input (and for
the absent input, which normalizes to the empty string), normalizing a
normalized value changes nothing. -/
theorem c9_clean_idempotent (s : Option String) :
    clean (some (clean s)) = clean s := by
  match s with
  | none => rfl
  | some str =>
    by_cases h : str = ""
    · subst h; rfl
    · simp only [clean, h, if_false]
      by_cases h2 : (⟨stripWS (collapseWS str.data)⟩ : String) = ""
      · rw [if_pos h2]; exact h2.symm
      · rw [if_neg h2]
        show (⟨stripWS (collapseWS (stripWS (collapseWS str.data)))⟩ : String) = _
        rw [cleanL_idem]

/-! ### The polling cycle: dedup across repeated runs -/

